import Mathlib

/-!
# Verification of the multi-signer DNSSEC provisioning core

Shallow embedding of the repository (package `music`): the rate-limited
DDNS op manager (`ddnsmgr`), the `rlddns` updater (`RLDdnsUpdater`,
`RLDdnsFetchRRset`), the auto-push scheduler (`PushZones`/`PushZone`) and
the LEAVE-process FSM transitions (`LeaveSyncNsesAction`,
`LeaveAddCDSPreCondition`/`Action`, `LeaveAddCsyncPreCondition`/`Action`).

Go machine integers are modelled as `Nat` (no arithmetic here ever nears
an overflow boundary); Go `nil` pointers and `nil` slices are modelled as
`Option`; channels are modelled by explicit queues and by recording the
single value a worker sends on an op's response channel.  Network and
database I/O is modelled by an explicit environment of functions, and the
side effects a transition issues are collected in an effect trace.
-/

namespace Music

/-- A configured signer (`music.Signer`): name, transport method tag,
network address, port and TSIG credential. -/
structure Signer where
  Name : String
  Method : String
  Address : String
  Port : String
  Auth : String
deriving DecidableEq, Repr

/-- Shallow model of `dns.RR`: one constructor per concrete Go type that
the sources inspect with a type assertion, plus `other` for every other
concrete record type (carrying its rrtype code).  TTLs and header class
are not inspected by the modelled code and are omitted. -/
inductive RR where
  | dnskey (flags protocol algorithm : Nat) (publicKey : String)
  | cds (keyTag algorithm digestType : Nat) (digest : String)
  | cdnskey (flags protocol algorithm : Nat) (publicKey : String)
  | ns (nsName : String)
  | ds (keyTag algorithm digestType : Nat) (digest : String)
  | soa (serial : Nat)
  | csync (serial flags : Nat) (typeBitMap : List Nat)
  | other (rtype : Nat)
deriving DecidableEq, Repr

/-- DNS rrtype codes used by the sources (values from miekg/dns). -/
def TypeA : Nat := 1

def TypeNS : Nat := 2

def TypeSOA : Nat := 6

def TypeAAAA : Nat := 28

def TypeDS : Nat := 43

def TypeDNSKEY : Nat := 48

def TypeCDS : Nat := 59

def TypeCDNSKEY : Nat := 60

def TypeCSYNC : Nat := 62

/-- The rrtype of a record: determined by the concrete type for the seven
kinds the code matches on, carried explicitly for `other`. -/
def RR.rtype : RR → Nat
  | .dnskey _ _ _ _ => TypeDNSKEY
  | .cds _ _ _ _ => TypeCDS
  | .cdnskey _ _ _ _ => TypeCDNSKEY
  | .ns _ => TypeNS
  | .ds _ _ _ _ => TypeDS
  | .soa _ => TypeSOA
  | .csync _ _ _ => TypeCSYNC
  | .other t => t

/-- `music.SignerOpResult`: what a worker writes to an op's response
slot.  The Go `Status` is an int, `RRs` a slice, `Error` an error value,
`Response` a string. -/
structure SignerOpResult where
  Status : Int := 0
  RRs : List RR := []
  Error : Option String := none
  Response : String := ""
deriving DecidableEq, Repr

/-- `music.SignerOp`: a reified fetch/update request.  `Signer` is a Go
pointer (`none` = nil); `Inserts`/`Removes` are `*[][]dns.RR` (`none` =
nil); `ResponseMade` records whether the response channel is non-nil,
i.e. whether the op was created with `make(chan SignerOpResult, ...)`.
The Go zero value `SignerOp{}` is the record of all defaults. -/
structure SignerOp where
  Signer : Option Signer := none
  Zone : String := ""
  Owner : String := ""
  RRtype : Nat := 0
  Inserts : Option (List (List RR)) := none
  Removes : Option (List (List RR)) := none
  ResponseMade : Bool := false
deriving DecidableEq, Repr

/-! ## The rate-limited DDNS manager (`ddnsmgr`, part_000)

Each lane keeps a queue (`fetchOpQueue`/`updateOpQueue`).  On a tick the
counter is reset to 0 and the code ranges over a snapshot of the queue:
it increments the counter, and once the counter exceeds the limit it
appends the current op to the queue and breaks; otherwise it performs
the op.  The queue variable is otherwise never reassigned, so processed
ops are not removed from it. -/

/-- The drain loop body of one tick (part_000 lines 64-84 fetch lane,
106-127 update lane): `pending` is the range snapshot, `queue` the live
queue variable.  Returns (ops performed in order, queue after the tick). -/
def laneDrain (limit : Nat) (counter : Nat) (pending : List SignerOp)
    (queue : List SignerOp) : List SignerOp × List SignerOp :=
  match pending with
  | [] => ([], queue)
  | op :: rest =>
      if counter + 1 > limit then
        ([], queue ++ [op])
      else
        let r := laneDrain limit (counter + 1) rest queue
        (op :: r.1, r.2)

/-- One tick of a lane: reset the counter, drain over a snapshot of the
queue. -/
def laneTick (limit : Nat) (queue : List SignerOp) :
    List SignerOp × List SignerOp :=
  laneDrain limit 0 queue queue

/-- `n` consecutive ticks of a lane with no arrivals in between: the list
of per-tick performed-op lists, and the final queue. -/
def laneRun (limit : Nat) : Nat → List SignerOp →
    List (List SignerOp) × List SignerOp
  | 0, q => ([], q)
  | n + 1, q =>
      let t := laneTick limit q
      let r := laneRun limit n t.2
      (t.1 :: r.1, r.2)

/-- One tick of the fetch lane: the cap compared against is
`fetch_limit` (part_000 line 66). -/
def fetchLaneTick (fetch_limit : Nat) (queue : List SignerOp) :
    List SignerOp × List SignerOp :=
  laneTick fetch_limit queue

/-- One tick of the update lane.  The cap compared against at part_000
line 108 is `fetch_limit`, not `update_limit`; `update_limit` is read
from the configuration (line 31) but unused in the drain loop. -/
def updateLaneTick (fetch_limit : Nat) (update_limit : Nat)
    (queue : List SignerOp) : List SignerOp × List SignerOp :=
  laneTick fetch_limit queue

/-- Go `time.Duration(n)` for an integer `n`: a duration of `n`
nanoseconds (`time.Duration` counts nanoseconds). -/
def goDuration (n : Nat) : Nat := n

/-- Nanoseconds per second (`time.Second`). -/
def nanosPerSecond : Nat := 1000000000

/-- The throttle retry loop around one op (part_000 lines 74-83 and
117-126): call the network function, and while it reports rate-limiting
sleep `time.Duration(hold)` and retry the same op.  `results` is the
sequence of (rate-limited, hold, err) values returned by successive
calls; returns (number of calls made, total nanoseconds slept).  The
loop exits exactly at the first non-throttle result. -/
def throttleRetry : List (Bool × Nat × Option String) → Nat × Nat
  | [] => (0, 0)
  | (rl, hold, _) :: rest =>
      if rl then
        let r := throttleRetry rest
        (r.1 + 1, goDuration hold + r.2)
      else
        (1, 0)

/-! ## The rlddns updater (apiclient.go, rlddnsupdater part) -/

/-- The op that `RLDdnsUpdater.Update` (apiclient.go 703-710) sends on
the update channel: `op := SignerOp{}` — the zero value, regardless of
the arguments.  No field is populated and no response channel is made. -/
def RLDdnsUpdaterUpdate_op (_signer : Signer) (_zone _fqdn : String)
    (_inserts _removes : Option (List (List RR))) : SignerOp :=
  {}

/-- The op that `RLDdnsUpdater.FetchRRset` (apiclient.go 826-843) sends
on the fetch channel: signer, zone, owner and rrtype are populated and a
response channel is made (buffered, capacity 2). -/
def RLDdnsUpdaterFetchRRset_op (s : Signer) (zone owner : String)
    (rrtype : Nat) : SignerOp :=
  { Signer := some s, Zone := zone, Owner := owner, RRtype := rrtype,
    Inserts := none, Removes := none, ResponseMade := true }

/-- Some concrete ops and signers used as evaluation points. -/
def op0 : SignerOp := {}

def opA : SignerOp := { Owner := "a.example." }

def opB : SignerOp := { Owner := "b.example." }

def signer1 : Signer :=
  { Name := "signer1.example.", Method := "rlddns", Address := "10.0.0.1",
    Port := "53", Auth := "key1:secret1" }

/-! ## RLDdnsFetchRRset (apiclient.go 845-967) -/

/-- A parsed DNS response message: response code and answer section. -/
structure DnsMsg where
  Rcode : Nat
  Answer : List RR
deriving DecidableEq, Repr

/-- `dns.RcodeSuccess`. -/
def RcodeSuccess : Nat := 0

/-- `dns.TypeToString` restricted to the codes the sources touch; a map
lookup miss yields the empty string.  In miekg/dns every known code has
a distinct name, so no code other than the seven below maps to one of
the seven strings matched by the fetch filter. -/
def TypeToString : Nat → String
  | 1 => "A"
  | 2 => "NS"
  | 6 => "SOA"
  | 28 => "AAAA"
  | 43 => "DS"
  | 46 => "RRSIG"
  | 48 => "DNSKEY"
  | 59 => "CDS"
  | 60 => "CDNSKEY"
  | 62 => "CSYNC"
  | _ => ""

/-- The answer-section filter switch of `RLDdnsFetchRRset` (apiclient.go
902-955): a record is kept iff `dns.TypeToString[rrtype]` is one of the
seven case strings and the record's concrete type assertion for that
case succeeds (a Go string switch is a chain of equality tests). -/
def rlFilterKeep (rrtype : Nat) (a : RR) : Bool :=
  if TypeToString rrtype = "DNSKEY" then
    match a with | .dnskey _ _ _ _ => true | _ => false
  else if TypeToString rrtype = "CDS" then
    match a with | .cds _ _ _ _ => true | _ => false
  else if TypeToString rrtype = "CDNSKEY" then
    match a with | .cdnskey _ _ _ _ => true | _ => false
  else if TypeToString rrtype = "NS" then
    match a with | .ns _ => true | _ => false
  else if TypeToString rrtype = "DS" then
    match a with | .ds _ _ _ _ => true | _ => false
  else if TypeToString rrtype = "SOA" then
    match a with | .soa _ => true | _ => false
  else if TypeToString rrtype = "CSYNC" then
    match a with | .csync _ _ _ => true | _ => false
  else false

/-- Whether `strings.SplitN(auth, ":", 2)` has length 2, which holds iff
`auth` contains a colon (colon = character code 58). -/
def authHasTsig (auth : String) : Bool :=
  auth.data.contains (Char.ofNat 58)

/-- Outcome of one `RLDdnsFetchRRset` call: either a nil-`*Signer`
dereference panic, or the single `SignerOpResult` sent on the op's
response channel together with the (rate-limited, hold, err) triple
returned to `ddnsmgr`. -/
inductive FetchOutcome where
  | panicked
  | sent (res : SignerOpResult) (ret : Bool × Nat × Option String)
deriving DecidableEq, Repr

/-- `RLDdnsFetchRRset` (apiclient.go 845-967).  `exchange` is the result
of `c.Exchange` on the query this op builds (error or parsed message).
Prerequisite checks overwrite `err` in source order; on any error the
result carries the error and an empty RR list; on RCODE failure
likewise; otherwise the answer section is filtered by the rrtype switch
and sent with `Response = "Tjolahopp"`. -/
def RLDdnsFetchRRset (fdop : SignerOp) (exchange : Except String DnsMsg) :
    FetchOutcome :=
  match fdop.Signer with
  | none => .panicked
  | some signer =>
      let err1 : Option String :=
        if signer.Address = "" then
          some ("No ip|host for signer " ++ signer.Name)
        else none
      let err2 : Option String :=
        if signer.Auth = "" then
          some ("No TSIG for signer " ++ signer.Name)
        else err1
      let err3 : Option String :=
        if authHasTsig signer.Auth = false then
          some ("Incorrect TSIG for signer " ++ signer.Name)
        else err2
      match err3 with
      | some e => .sent { Error := some e } (false, 0, none)
      | none =>
          match exchange with
          | .error e => .sent { Error := some e } (false, 0, none)
          | .ok r =>
              if r.Rcode ≠ RcodeSuccess then
                .sent { Error := some ("Fetch of " ++ TypeToString fdop.RRtype
                          ++ " RRset failed, RCODE = " ++ toString r.Rcode) }
                      (false, 0, none)
              else
                .sent { Status := 0,
                        RRs := r.Answer.filter (rlFilterKeep fdop.RRtype),
                        Error := none,
                        Response := "Tjolahopp" }
                      (false, 0, none)

/-- The seven rrtype codes the fetch filter can keep. -/
def fetchFilterTypes : List Nat :=
  [TypeDNSKEY, TypeCDS, TypeCDNSKEY, TypeNS, TypeDS, TypeSOA, TypeCSYNC]

theorem typeToString_inv (t : Nat) :
    (TypeToString t = "DNSKEY" → t = TypeDNSKEY) ∧
    (TypeToString t = "CDS" → t = TypeCDS) ∧
    (TypeToString t = "CDNSKEY" → t = TypeCDNSKEY) ∧
    (TypeToString t = "NS" → t = TypeNS) ∧
    (TypeToString t = "DS" → t = TypeDS) ∧
    (TypeToString t = "SOA" → t = TypeSOA) ∧
    (TypeToString t = "CSYNC" → t = TypeCSYNC) := by
  unfold TypeToString
  split <;> refine ⟨?_, ?_, ?_, ?_, ?_, ?_, ?_⟩ <;> intro h <;>
    first
      | rfl
      | exact absurd h (by decide)

theorem rlFilterKeep_sound {t : Nat} {a : RR} (h : rlFilterKeep t a = true) :
    a.rtype = t ∧ t ∈ fetchFilterTypes := by
  have hinv := typeToString_inv t
  unfold rlFilterKeep at h
  split_ifs at h with h1 h2 h3 h4 h5 h6 h7
  · have ht := hinv.1 h1
    subst ht
    cases a <;> simp at h <;> exact ⟨rfl, by decide⟩
  · have ht := hinv.2.1 h2
    subst ht
    cases a <;> simp at h <;> exact ⟨rfl, by decide⟩
  · have ht := hinv.2.2.1 h3
    subst ht
    cases a <;> simp at h <;> exact ⟨rfl, by decide⟩
  · have ht := hinv.2.2.2.1 h4
    subst ht
    cases a <;> simp at h <;> exact ⟨rfl, by decide⟩
  · have ht := hinv.2.2.2.2.1 h5
    subst ht
    cases a <;> simp at h <;> exact ⟨rfl, by decide⟩
  · have ht := hinv.2.2.2.2.2.1 h6
    subst ht
    cases a <;> simp at h <;> exact ⟨rfl, by decide⟩
  · have ht := hinv.2.2.2.2.2.2 h7
    subst ht
    cases a <;> simp at h <;> exact ⟨rfl, by decide⟩

/-! ## FSM data model and I/O environment

The LEAVE transitions run against a database (signer lookup, cached RR
rows) and the DNS (queries via `dns.Client.Exchange`, updates via an
`Updater`).  `Env` packages those collaborators as functions; the
effects a transition issues (queries and updates, in program order) are
collected in a trace. -/

/-- `music.SignerGroup`: name and member map.  Go map iteration order is
unspecified; the member map is modelled as a list in some order. -/
structure SignerGroup where
  Name : String
  SignerMap : List Signer
deriving DecidableEq, Repr

/-- `music.Zone`: the fields the modelled transitions read.  `SGroup` is
a pointer (`none` = nil). -/
structure Zone where
  Name : String
  ZoneType : String
  FSM : String
  State : String
  FSMSigner : String
  SGroup : Option SignerGroup
deriving DecidableEq, Repr

/-- `Zone.SignerGroup()`: returns the zone's group pointer. -/
def Zone.SignerGroup (z : Zone) : Option Music.SignerGroup := z.SGroup

/-- One externally visible DNS side effect of a transition. -/
inductive Effect where
  | dnsQuery (addr : String) (qname : String) (qtype : Nat)
  | dnsUpdate (signerName : String) (zone : String) (owner : String)
      (inserts : Option (List (List RR)))
      (removes : Option (List (List RR)))
deriving DecidableEq, Repr

/-- How a transition function returns: `ok`/`failed` are the boolean
results; `fatal` is `log.Fatalf` (terminates the whole process);
`panicked` is a nil-pointer dereference. -/
inductive Outcome where
  | ok
  | failed
  | fatal (msg : String)
  | panicked
deriving DecidableEq, Repr

/-- Result of running one precondition or action: the outcome, the
argument of the last `z.SetStopReason` call (`none` if never called),
and the DNS effects issued, in order. -/
structure StepResult where
  outcome : Outcome
  stopReason : Option String
  effects : List Effect
deriving DecidableEq, Repr

/-- The transition's collaborators.  `getSignerByName` is
`MusicDB.GetSignerByName`; `zoneNses`/`zoneDnskeys` are the prepared
SELECT over `zone_nses`/`zone_dnskeys` keyed by (zone, signer), whose
`error` case stands for any prepare/query/scan failure (logged only);
`exchange addr qname qtype` is `dns.Client.Exchange` of the query the
transition builds; `update` is `GetUpdater(signer.Method).Update`,
returning an error or `none` for success. -/
structure Env where
  getSignerByName : String → Except String Signer
  zoneNses : String → String → Except Unit (List String)
  zoneDnskeys : String → String → Except Unit (List String)
  exchange : String → String → Nat → Except String DnsMsg
  update : Signer → String → String → Option (List (List RR)) →
    Option (List (List RR)) → Option String

/-! ## LEAVE_SYNC_NSES (leave_sync_nses.go) -/

/-- `LeaveSyncNsesPreCondition`: unconditionally true. -/
def LeaveSyncNsesPreCondition (_z : Zone) : Bool := true

/-- The update loop of `LeaveSyncNsesAction` (leave_sync_nses.go 79-86):
remove `nsrem` from each signer of the member map, aborting at the first
error.  Returns the effects issued and the stop reason on failure. -/
def syncNsesRemoveLoop (env : Env) (zName : String) (nsrem : List RR) :
    List Signer → List Effect × Option String
  | [] => ([], none)
  | s :: rest =>
      let eff := Effect.dnsUpdate s.Name zName zName none (some [nsrem])
      match env.update s zName zName none (some [nsrem]) with
      | some e =>
          ([eff], some ("Unable to remove NSes from " ++ s.Name ++ ": " ++ e))
      | none =>
          let r := syncNsesRemoveLoop env zName nsrem rest
          (eff :: r.1, r.2)

/-- `LeaveSyncNsesAction` (leave_sync_nses.go 27-96): debug shortcut;
fatal on missing signer group; fatal on empty `FSMSigner`; look up the
leaving signer; read the leaving signer's `zone_nses` rows; remove those
NS records from every member signer and then, explicitly, from the
leaving signer. -/
def LeaveSyncNsesAction (env : Env) (z : Zone) : StepResult :=
  if z.ZoneType = "debug" then
    { outcome := .ok, stopReason := none, effects := [] }
  else
    match z.SignerGroup with
    | none =>
        { outcome := .fatal ("Zone " ++ z.Name ++ " in process " ++ z.FSM ++
            " not attached to any signer group."),
          stopReason := none, effects := [] }
    | some sg =>
        if z.FSMSigner = "" then
          { outcome := .fatal ("Leaving signer name for zone " ++ z.Name ++
              " unset."),
            stopReason := none, effects := [] }
        else
          match env.getSignerByName z.FSMSigner with
          | .error e =>
              { outcome := .failed,
                stopReason := some ("Unable to get leaving signer " ++
                  z.FSMSigner ++ ": " ++ e),
                effects := [] }
          | .ok leavingSigner =>
              match env.zoneNses z.Name leavingSigner.Name with
              | .error _ =>
                  { outcome := .failed, stopReason := none, effects := [] }
              | .ok nsRows =>
                  let nsrem : List RR := nsRows.map (fun n => RR.ns n)
                  match syncNsesRemoveLoop env z.Name nsrem sg.SignerMap with
                  | (effs, some reason) =>
                      { outcome := .failed, stopReason := some reason,
                        effects := effs }
                  | (effs, none) =>
                      let eff := Effect.dnsUpdate leavingSigner.Name z.Name
                        z.Name none (some [nsrem])
                      match env.update leavingSigner z.Name z.Name none
                          (some [nsrem]) with
                      | some e =>
                          { outcome := .failed,
                            stopReason := some ("Unable to remove NSes from "
                              ++ leavingSigner.Name ++ ": " ++ e),
                            effects := effs ++ [eff] }
                      | none =>
                          { outcome := .ok, stopReason := none,
                            effects := effs ++ [eff] }

/-! ## LEAVE_ADD_CDS precondition (part_001 lines 23-105) -/

/-- The key-identity string recorded in `zone_dnskeys` and rebuilt from
an answered DNSKEY: `"<protocol>-<algorithm>-<publickey>"`. -/
def dnskeyIdent (protocol algorithm : Nat) (publicKey : String) : String :=
  toString protocol ++ "-" ++ toString algorithm ++ "-" ++ publicKey

/-- First DNSKEY of an answer section whose identity is among the
leaving signer's recorded keys (part_001 lines 90-101); returns its
public key. -/
def firstRecordedDnskey (keys : List String) : List RR → Option String
  | [] => none
  | RR.dnskey _ p alg pk :: rest =>
      if keys.contains (dnskeyIdent p alg pk) then some pk
      else firstRecordedDnskey keys rest
  | _ :: rest => firstRecordedDnskey keys rest

/-- The verification loop of `LeaveAddCDSPreCondition` (part_001 lines
73-102): for each member signer except the leaving one (issue-130
workaround), query DNSKEY at `s.Address + ":" + s.Port` and fail if any
answered DNSKEY is still among the leaving signer's recorded keys. -/
def cdsPreLoop (env : Env) (zName leavingName : String)
    (keys : List String) : List Signer → List Effect × Option String
  | [] => ([], none)
  | s :: rest =>
      if s.Name = leavingName then cdsPreLoop env zName leavingName keys rest
      else
        let addr := s.Address ++ ":" ++ s.Port
        let eff := Effect.dnsQuery addr zName TypeDNSKEY
        match env.exchange addr zName TypeDNSKEY with
        | .error e =>
            ([eff], some ("Unable to fetch DNSKEYs from " ++ s.Name ++ ": "
              ++ e))
        | .ok r =>
            match firstRecordedDnskey keys r.Answer with
            | some pk =>
                ([eff], some ("DNSKEY " ++ pk ++ " still exists in signer "
                  ++ s.Name))
            | none =>
                let rst := cdsPreLoop env zName leavingName keys rest
                (eff :: rst.1, rst.2)

/-- `LeaveAddCDSPreCondition` (part_001 lines 23-105): debug shortcut;
fatal on missing signer group; fatal on empty `FSMSigner`; look up the
leaving signer (failure sets the stop reason); read its recorded
`zone_dnskeys` rows (failure is logged only); then verify no remaining
signer still serves one of those keys. -/
def LeaveAddCDSPreCondition (env : Env) (z : Zone) : StepResult :=
  if z.ZoneType = "debug" then
    { outcome := .ok, stopReason := none, effects := [] }
  else
    match z.SignerGroup with
    | none =>
        { outcome := .fatal ("Zone " ++ z.Name ++ " in process " ++ z.FSM ++
            " not attached to any signer group."),
          stopReason := none, effects := [] }
    | some sg =>
        if z.FSMSigner = "" then
          { outcome := .fatal ("Leaving signer name for zone " ++ z.Name ++
              " unset."),
            stopReason := none, effects := [] }
        else
          match env.getSignerByName z.FSMSigner with
          | .error e =>
              { outcome := .failed,
                stopReason := some ("Unable to get leaving signer " ++
                  z.FSMSigner ++ ": " ++ e),
                effects := [] }
          | .ok leavingSigner =>
              match env.zoneDnskeys z.Name leavingSigner.Name with
              | .error _ =>
                  { outcome := .failed, stopReason := none, effects := [] }
              | .ok keys =>
                  match cdsPreLoop env z.Name z.FSMSigner keys sg.SignerMap with
                  | (effs, some reason) =>
                      { outcome := .failed, stopReason := some reason,
                        effects := effs }
                  | (effs, none) =>
                      { outcome := .ok, stopReason := none, effects := effs }

/-! ## LEAVE_ADD_CSYNC (leave_add_csync.go)

Both the precondition and the action of this transition use the
hard-coded leaving signer name at lines 24 and 114, and neither has a
`ZoneType=debug` shortcut. -/

/-- First NS of an answer section whose target is among the leaving
signer's recorded NS names (leave_add_csync.go 69-79 and 91-101). -/
def firstRecordedNs (nses : List String) : List RR → Option String
  | [] => none
  | RR.ns n :: rest =>
      if nses.contains n then some n else firstRecordedNs nses rest
  | _ :: rest => firstRecordedNs nses rest

/-- The member-signer verification loop of `LeaveAddCsyncPreCondition`
(lines 59-80): query NS from every signer of the member map — the
leaving signer is not skipped here — at `s.Address + ":53"`. -/
def csyncPreLoop (env : Env) (zName : String) (nses : List String) :
    List Signer → List Effect × Option String
  | [] => ([], none)
  | s :: rest =>
      let addr := s.Address ++ ":53"
      let eff := Effect.dnsQuery addr zName TypeNS
      match env.exchange addr zName TypeNS with
      | .error e =>
          ([eff], some ("Unable to fetch NSes from " ++ s.Name ++ ": " ++ e))
      | .ok r =>
          match firstRecordedNs nses r.Answer with
          | some n =>
              ([eff], some ("NS " ++ n ++ " still exists in signer " ++
                s.Name))
          | none =>
              let rst := csyncPreLoop env zName nses rest
              (eff :: rst.1, rst.2)

/-- `LeaveAddCsyncPreCondition` (leave_add_csync.go 23-105).  The
leaving signer is the hard-coded name, not `z.FSMSigner`; there is no
debug shortcut; every failure is logged only (`stopReason` stays
`none`); after the member loop the leaving signer is queried
explicitly. -/
def LeaveAddCsyncPreCondition (env : Env) (z : Zone) : StepResult :=
  let leavingSignerName := "signer2.catch22.se."
  match env.getSignerByName leavingSignerName with
  | .error _ => { outcome := .failed, stopReason := none, effects := [] }
  | .ok leavingSigner =>
      match env.zoneNses z.Name leavingSigner.Name with
      | .error _ => { outcome := .failed, stopReason := none, effects := [] }
      | .ok nses =>
          match z.SGroup with
          | none => { outcome := .panicked, stopReason := none, effects := [] }
          | some sg =>
              match csyncPreLoop env z.Name nses sg.SignerMap with
              | (effs, some _) =>
                  { outcome := .failed, stopReason := none, effects := effs }
              | (effs, none) =>
                  let addr := leavingSigner.Address ++ ":53"
                  let eff := Effect.dnsQuery addr z.Name TypeNS
                  match env.exchange addr z.Name TypeNS with
                  | .error _ =>
                      { outcome := .failed, stopReason := none,
                        effects := effs ++ [eff] }
                  | .ok r =>
                      match firstRecordedNs nses r.Answer with
                      | some _ =>
                          { outcome := .failed, stopReason := none,
                            effects := effs ++ [eff] }
                      | none =>
                          { outcome := .ok, stopReason := none,
                            effects := effs ++ [eff] }

/-- Publication of CSYNC records for one signer, one per SOA in the
answer (leave_add_csync.go 138-157): serial from the SOA, flags 3, type
bitmap {A, NS, AAAA}. -/
def csyncPublish (env : Env) (zName : String) (s : Signer) :
    List RR → List Effect × Option String
  | [] => ([], none)
  | RR.soa serial :: rest =>
      let ins : List (List RR) := [[RR.csync serial 3 [TypeA, TypeNS, TypeAAAA]]]
      let eff := Effect.dnsUpdate s.Name zName zName (some ins) none
      match env.update s zName zName (some ins) none with
      | some e =>
          ([eff], some ("Unable to update " ++ s.Name ++
            " with CSYNC record sets: " ++ e))
      | none =>
          let rst := csyncPublish env zName s rest
          (eff :: rst.1, rst.2)
  | _ :: rest => csyncPublish env zName s rest

/-- The member loop of `LeaveAddCsyncAction` (lines 128-158): for each
member signer — again without skipping the leaving signer — fetch SOA at
`s.Address + ":53"` and publish the CSYNC records. -/
def csyncActLoop (env : Env) (zName : String) :
    List Signer → List Effect × Option String
  | [] => ([], none)
  | s :: rest =>
      let addr := s.Address ++ ":53"
      let qeff := Effect.dnsQuery addr zName TypeSOA
      match env.exchange addr zName TypeSOA with
      | .error e =>
          ([qeff], some ("Unable to fetch SOA from " ++ s.Name ++ ": " ++ e))
      | .ok r =>
          match csyncPublish env zName s r.Answer with
          | (effs, some e) => (qeff :: effs, some e)
          | (effs, none) =>
              let rst := csyncActLoop env zName rest
              (qeff :: effs ++ rst.1, rst.2)

/-- `LeaveAddCsyncAction` (leave_add_csync.go 113-192): hard-coded
leaving signer, no debug shortcut; CSYNC publication to every member
signer and then, explicitly, to the leaving signer. -/
def LeaveAddCsyncAction (env : Env) (z : Zone) : StepResult :=
  let leavingSignerName := "signer2.catch22.se."
  match env.getSignerByName leavingSignerName with
  | .error _ => { outcome := .failed, stopReason := none, effects := [] }
  | .ok leavingSigner =>
      match z.SGroup with
      | none => { outcome := .panicked, stopReason := none, effects := [] }
      | some sg =>
          match csyncActLoop env z.Name sg.SignerMap with
          | (effs, some _) =>
              { outcome := .failed, stopReason := none, effects := effs }
          | (effs, none) =>
              let addr := leavingSigner.Address ++ ":53"
              let qeff := Effect.dnsQuery addr z.Name TypeSOA
              match env.exchange addr z.Name TypeSOA with
              | .error _ =>
                  { outcome := .failed, stopReason := none,
                    effects := effs ++ [qeff] }
              | .ok r =>
                  match csyncPublish env z.Name leavingSigner r.Answer with
                  | (es2, some _) =>
                      { outcome := .failed, stopReason := none,
                        effects := effs ++ qeff :: es2 }
                  | (es2, none) =>
                      { outcome := .ok, stopReason := none,
                        effects := effs ++ qeff :: es2 }

/-! ## LEAVE_ADD_CDS action (part_001 lines 107-170) -/

/-- `dns.SHA256` digest-type code. -/
def SHA256 : Nat := 2

/-- The fields of a DNSKEY record. -/
structure DnskeyData where
  flags : Nat
  protocol : Nat
  algorithm : Nat
  publicKey : String
deriving DecidableEq, Repr

/-- Modelled external library (miekg/dns): the key tag of a DNSKEY.
Abstract, deterministic stand-in; the claims depend only on the CDS
being a function of the key. -/
def keyTag (k : DnskeyData) : Nat :=
  (k.flags + k.protocol + k.algorithm + k.publicKey.length) % 65536

/-- Modelled external library (miekg/dns): the digest of the owner name
and a DNSKEY under digest type `h`; abstract, deterministic stand-in for
the hash inside `DNSKEY.ToDS`. -/
def dnskeyDigest (h : Nat) (owner : String) (k : DnskeyData) : String :=
  "digest-" ++ toString h ++ "-" ++ owner ++ "-" ++
    dnskeyIdent k.protocol k.algorithm k.publicKey

/-- `dnskey.ToDS(h).ToCDS()`: a CDS carrying the DNSKEY's key tag and
algorithm, the requested digest type and the computed digest. -/
def dnskeyToCDS (owner : String) (h : Nat) (k : DnskeyData) : RR :=
  RR.cds (keyTag k) k.algorithm h (dnskeyDigest h owner k)

/-- `dnskey.ToCDNSKEY()`: a CDNSKEY echoing the DNSKEY's fields. -/
def dnskeyToCDNSKEY (k : DnskeyData) : RR :=
  RR.cdnskey k.flags k.protocol k.algorithm k.publicKey

/-- The per-answer collection loop of `LeaveAddCDSAction` (part_001
140-150): each answered DNSKEY with `flags & 0x101 == 257` contributes
one CDS built via SHA-256 and one CDNSKEY, in answer order; every other
record contributes nothing. -/
def collectFromAnswer (owner : String) : List RR → List RR × List RR
  | [] => ([], [])
  | RR.dnskey f p alg pk :: rest =>
      let r := collectFromAnswer owner rest
      if f &&& 0x101 = 257 then
        (dnskeyToCDS owner SHA256 ⟨f, p, alg, pk⟩ :: r.1,
         dnskeyToCDNSKEY ⟨f, p, alg, pk⟩ :: r.2)
      else r
  | _ :: rest => collectFromAnswer owner rest

/-- The KSKs of an answer section: the DNSKEYs whose flags satisfy
`flags & 0x101 == 257`, in answer order. -/
def kskKeys : List RR → List DnskeyData
  | [] => []
  | RR.dnskey f p alg pk :: rest =>
      if f &&& 0x101 = 257 then ⟨f, p, alg, pk⟩ :: kskKeys rest
      else kskKeys rest
  | _ :: rest => kskKeys rest

/-- The DNSKEY-fetch-and-collect loop over the member map (part_001
124-151), skipping the leaving signer: accumulates the CDS/CDNSKEY sets
across the remaining signers, in signer order. -/
def cdsCollectLoop (env : Env) (zName leavingName : String) :
    List Signer → (List RR × List RR) × List Effect × Option String
  | [] => (([], []), [], none)
  | s :: rest =>
      if s.Name = leavingName then cdsCollectLoop env zName leavingName rest
      else
        let addr := s.Address ++ ":" ++ s.Port
        let eff := Effect.dnsQuery addr zName TypeDNSKEY
        match env.exchange addr zName TypeDNSKEY with
        | .error e =>
            (([], []), [eff], some ("Unable to fetch DNSKEYs from " ++
              s.Name ++ ": " ++ e))
        | .ok r =>
            let here := collectFromAnswer zName r.Answer
            let rst := cdsCollectLoop env zName leavingName rest
            ((here.1 ++ rst.1.1, here.2 ++ rst.1.2), eff :: rst.2.1,
              rst.2.2)

/-- The publish loop (part_001 154-167): push the composed
`[cdses, cdnskeys]` insert to each member signer except the leaving
one, aborting at the first error. -/
def cdsPublishLoop (env : Env) (zName leavingName : String)
    (ins : List (List RR)) : List Signer → List Effect × Option String
  | [] => ([], none)
  | s :: rest =>
      if s.Name = leavingName then
        cdsPublishLoop env zName leavingName ins rest
      else
        let eff := Effect.dnsUpdate s.Name zName zName (some ins) none
        match env.update s zName zName (some ins) none with
        | some e =>
            ([eff], some ("Unable to update " ++ s.Name ++
              " with CDS/CDNSKEY record sets: " ++ e))
        | none =>
            let r := cdsPublishLoop env zName leavingName ins rest
            (eff :: r.1, r.2)

/-- `LeaveAddCDSAction` (part_001 107-170): debug shortcut; fatal on
empty `FSMSigner`; collect CDS/CDNSKEY from the remaining signers'
answered DNSKEYs; publish both sets to the remaining signers.  The
member map is dereferenced without a nil check. -/
def LeaveAddCDSAction (env : Env) (z : Zone) : StepResult :=
  if z.ZoneType = "debug" then
    { outcome := .ok, stopReason := none, effects := [] }
  else
    if z.FSMSigner = "" then
      { outcome := .fatal ("Leaving signer name for zone " ++ z.Name ++
          " unset."),
        stopReason := none, effects := [] }
    else
      match z.SGroup with
      | none => { outcome := .panicked, stopReason := none, effects := [] }
      | some sg =>
          match cdsCollectLoop env z.Name z.FSMSigner sg.SignerMap with
          | (_, effs, some reason) =>
              { outcome := .failed, stopReason := some reason,
                effects := effs }
          | (sets, effs, none) =>
              match cdsPublishLoop env z.Name z.FSMSigner
                  [sets.1, sets.2] sg.SignerMap with
              | (effs2, some reason) =>
                  { outcome := .failed, stopReason := some reason,
                    effects := effs ++ effs2 }
              | (effs2, none) =>
                  { outcome := .ok, stopReason := none,
                    effects := effs ++ effs2 }

/-- The member signers other than the leaving one, in member-map
order. -/
def remainingOf (leaving : String) (ss : List Signer) : List Signer :=
  ss.filter (fun s => s.Name != leaving)

/-- All KSKs answered by the remaining signers, in signer order then
answer order. -/
def answeredKsks (answers : String → List RR) (leaving : String)
    (ss : List Signer) : List DnskeyData :=
  ((remainingOf leaving ss).map
    (fun s => kskKeys (answers (s.Address ++ ":" ++ s.Port)))).join

/-- An environment whose DNS answers are given by a function from query
address to answer section, and in which every database read and every
update succeeds. -/
def answeringEnv (answers : String → List RR) : Env :=
  { getSignerByName := fun n => .error ("signer " ++ n ++ " unknown"),
    zoneNses := fun _ _ => .ok [],
    zoneDnskeys := fun _ _ => .ok [],
    exchange := fun addr _ _ => .ok { Rcode := 0, Answer := answers addr },
    update := fun _ _ _ _ _ => none }

theorem answeringEnv_exchange (answers : String → List RR)
    (addr q : String) (t : Nat) :
    (answeringEnv answers).exchange addr q t =
      .ok { Rcode := 0, Answer := answers addr } := rfl

theorem answeringEnv_update (answers : String → List RR) (s : Signer)
    (zn ow : String) (i r : Option (List (List RR))) :
    (answeringEnv answers).update s zn ow i r = none := rfl

theorem collectFromAnswer_eq (owner : String) (answer : List RR) :
    collectFromAnswer owner answer =
      ((kskKeys answer).map (dnskeyToCDS owner SHA256),
       (kskKeys answer).map dnskeyToCDNSKEY) := by
  induction answer with
  | nil => rfl
  | cons a rest ih =>
      cases a <;> simp [collectFromAnswer, kskKeys, ih] <;> split <;>
        simp [ih]

theorem kskKeys_flags {answer : List RR} {k : DnskeyData}
    (h : k ∈ kskKeys answer) : k.flags &&& 0x101 = 257 := by
  induction answer with
  | nil => simp [kskKeys] at h
  | cons a rest ih =>
      cases a <;> simp [kskKeys] at h <;> try exact ih h
      case dnskey f p alg pk =>
        split at h
        · rcases List.mem_cons.mp h with rfl | hm
          · assumption
          · exact ih hm
        · exact ih h

theorem answeredKsks_flags {answers : String → List RR} {leaving : String}
    {ss : List Signer} {k : DnskeyData}
    (h : k ∈ answeredKsks answers leaving ss) : k.flags &&& 0x101 = 257 := by
  unfold answeredKsks at h
  rw [List.mem_join] at h
  obtain ⟨l, hl, hk⟩ := h
  rw [List.mem_map] at hl
  obtain ⟨s, _, rfl⟩ := hl
  exact kskKeys_flags hk

theorem cdsCollectLoop_answering (answers : String → List RR)
    (zc leaving : String) (ss : List Signer) :
    cdsCollectLoop (answeringEnv answers) zc leaving ss =
      (((answeredKsks answers leaving ss).map (dnskeyToCDS zc SHA256),
        (answeredKsks answers leaving ss).map dnskeyToCDNSKEY),
       (remainingOf leaving ss).map
         (fun s => Effect.dnsQuery (s.Address ++ ":" ++ s.Port) zc
           TypeDNSKEY),
       none) := by
  induction ss with
  | nil => simp [cdsCollectLoop, answeredKsks, remainingOf]
  | cons s rest ih =>
      by_cases hname : s.Name = leaving
      · simp [cdsCollectLoop, hname, answeredKsks, remainingOf,
          List.filter_cons, ih]
      · simp [cdsCollectLoop, hname, answeringEnv_exchange,
          collectFromAnswer_eq, answeredKsks, remainingOf,
          List.filter_cons, ih]

theorem cdsPublishLoop_answering (answers : String → List RR)
    (zc leaving : String) (ins : List (List RR)) (ss : List Signer) :
    cdsPublishLoop (answeringEnv answers) zc leaving ins ss =
      ((remainingOf leaving ss).map
        (fun s => Effect.dnsUpdate s.Name zc zc (some ins) none),
       none) := by
  induction ss with
  | nil => simp [cdsPublishLoop, remainingOf]
  | cons s rest ih =>
      by_cases hname : s.Name = leaving
      · simp [cdsPublishLoop, hname, remainingOf, List.filter_cons, ih]
      · simp [cdsPublishLoop, hname, answeringEnv_update, remainingOf,
          List.filter_cons, ih]

/-- A signer group and environment used as concrete evaluation points
for the C4 theorem. -/
def signer2 : Signer :=
  { Name := "signer2.catch22.se.", Method := "ddns", Address := "10.0.0.2",
    Port := "53", Auth := "key2:secret2" }

def groupG : SignerGroup :=
  { Name := "G", SignerMap := [signer1, signer2] }

/-- An environment in which every lookup fails and every network call
errors: suitable for showing that a code path issues no I/O at all. -/
def envDead : Env :=
  { getSignerByName := fun n => .error ("signer " ++ n ++ " unknown"),
    zoneNses := fun _ _ => .error (),
    zoneDnskeys := fun _ _ => .error (),
    exchange := fun _ _ _ => .error "connection refused",
    update := fun _ _ _ _ _ => some "connection refused" }

/-- A zone in the LEAVE process with `FSMSigner` unset. -/
def zoneNoLeaver : Zone :=
  { Name := "example.", ZoneType := "normal", FSM := "leave",
    State := "leave-sync-nses", FSMSigner := "", SGroup := some groupG }

def signer3 : Signer :=
  { Name := "signer3.example.", Method := "ddns", Address := "10.0.0.3",
    Port := "53", Auth := "key3:secret3" }

/-- An environment where signer lookup resolves signers 1-3, the cached
RR rows are empty, every DNS query returns a clean empty answer and
every update succeeds. -/
def envLive : Env :=
  { getSignerByName := fun n =>
      if n = signer1.Name then .ok signer1
      else if n = signer2.Name then .ok signer2
      else if n = signer3.Name then .ok signer3
      else .error ("signer " ++ n ++ " unknown"),
    zoneNses := fun _ _ => .ok [],
    zoneDnskeys := fun _ _ => .ok [],
    exchange := fun _ _ _ => .ok { Rcode := 0, Answer := [] },
    update := fun _ _ _ _ _ => none }

def groupW : SignerGroup :=
  { Name := "G1", SignerMap := [signer1] }

/-- A LEAVE zone whose leaving signer, per its `FSMSigner` field, is
`signer3.example.`; the remaining member is `signer1`. -/
def zoneLeaveS3 : Zone :=
  { Name := "example.", ZoneType := "normal", FSM := "leave",
    State := "leave-add-csync", FSMSigner := "signer3.example.",
    SGroup := some groupW }

/-- A concrete answer table: signer1 serves one KSK (flags 257), one ZSK
(flags 256) and an NS record; everything else answers empty. -/
def answersW : String → List RR := fun addr =>
  if addr = "10.0.0.1:53" then
    [RR.dnskey 257 3 13 "a2V5MQ", RR.dnskey 256 3 13 "a2V5Mg",
     RR.ns "ns1.example."]
  else []

/-- The same zone marked `ZoneType=debug`. -/
def zoneDebugS3 : Zone :=
  { zoneLeaveS3 with ZoneType := "debug" }

/-! ## Auto-push scheduler (apiclient.go 600-667) -/

/-- One row of the zones table as read by `PushZones`. -/
structure ZoneRow where
  name : String
  zonetype : String
  fsm : String
  fsmsigner : String
  fsmstatus : String
  fsmmode : String
deriving DecidableEq, Repr

/-- The WHERE clause of the `AutoZones` query (apiclient.go 601-603):
`fsmmode='auto' AND fsm != '' AND fsmstatus != 'stop'`. -/
def autoZonePred (z : ZoneRow) : Bool :=
  z.fsmmode == "auto" && z.fsm != "" && z.fsmstatus != "stop"

/-- The rows the `AutoZones` SELECT returns over a zones table. -/
def AutoZones (db : List ZoneRow) : List ZoneRow :=
  db.filter autoZonePred

/-- `PushZone` (apiclient.go 654-667) calls `ZoneStepFsm` exactly once,
with no loop around it: its step trace is the one-element list. -/
def PushZone_steps (z : String) : List String := [z]

/-- The zone names `PushZones` (apiclient.go 613-652) collects from the
query on its success path. -/
def PushZones_zones (db : List ZoneRow) : List String :=
  (AutoZones db).map (fun z => z.name)

/-- The `ZoneStepFsm` invocations of one `PushZones` pass, by zone name
and in order: one `PushZone` per selected row. -/
def PushZones_steps (db : List ZoneRow) : List String :=
  ((PushZones_zones db).map PushZone_steps).join

theorem pushZone_steps_join (l : List String) :
    (l.map PushZone_steps).join = l := by
  induction l with
  | nil => rfl
  | cons z rest ih => simp [PushZone_steps, ih]

/-- Concrete fetch op, answer message and expected result used to
witness the C10 theorem. -/
def fdopW : SignerOp :=
  RLDdnsUpdaterFetchRRset_op signer1 "example." "example." TypeDNSKEY

def msgW : DnsMsg :=
  { Rcode := 0,
    Answer := [RR.dnskey 257 3 13 "cGsx", RR.ns "ns1.example.",
               RR.other 46] }

def resW : SignerOpResult :=
  { Status := 0, RRs := [RR.dnskey 257 3 13 "cGsx"], Error := none,
    Response := "Tjolahopp" }

/-! ## Theorems for C1, C2, C3, C7 -/

/-- C1: the claim states that within one lane every enqueued op is
performed (and its response slot written) exactly once, with only the
beyond-limit suffix carried FIFO to the next tick.  The code refutes it:
processed ops are never removed from the queue, so a single enqueued op
is performed again on every subsequent tick, and the first beyond-limit
op is appended a second time at the tail of the queue instead of staying
in place.  Here: with cap 5 and a single enqueued op, two ticks perform
the op twice and it is still queued; with cap 1 and queue [opA, opB],
one tick performs opA, yet the queue afterwards is [opA, opB, opB]. -/
theorem c1_lane_reexecutes_ops :
    (laneRun 5 2 [op0]).1 = [[op0], [op0]] ∧
    (laneRun 5 2 [op0]).2 = [op0] ∧
    laneTick 1 [opA, opB] = ([opA], [opA, opB, opB]) := by
  decide

/-- C2: the claim states the update lane performs at most
`signers.ddns.limits.update` ops per tick.  The code compares the update
lane counter against `fetch_limit` (part_000 line 108): with
`fetch_limit = 5`, `update_limit = 2` and five queued update ops, a
single tick performs all five. -/
theorem c2_update_lane_uses_fetch_limit :
    ((updateLaneTick 5 2 (List.replicate 5 op0)).1).length = 5 ∧
    ¬ ((updateLaneTick 5 2 (List.replicate 5 op0)).1).length ≤ 2 := by
  decide

/-- C3: the claim states that on a throttle signal with hold `h` the
worker sleeps `h` seconds.  The code executes
`time.Sleep(time.Duration(hold))`, i.e. `hold` nanoseconds: for the
spec's deSEC scenario (one throttle result with hold 7, then success)
the loop makes two calls and sleeps a total of `goDuration 7 = 7`
nanoseconds, not `7 * nanosPerSecond`. -/
theorem c3_throttle_sleep_is_nanoseconds :
    throttleRetry [(true, 7, none), (false, 0, none)] = (2, goDuration 7) ∧
    goDuration 7 = 7 ∧
    goDuration 7 ≠ 7 * nanosPerSecond := by
  decide

/-- C7: the claim states every op submitted by the rlddns updater
carries the requesting signer, zone, owner, payload and a response slot.
The fetch side does, but `RLDdnsUpdater.Update` sends the zero value
`SignerOp{}`: no signer, no zone/owner, no inserts/removes, and a nil
response channel (so the subsequent receive can never be served). -/
theorem c7_update_op_is_zero_value :
    RLDdnsUpdaterUpdate_op signer1 "example." "example."
        (some [[RR.ns "ns1.example."]]) none = op0 ∧
    op0.Signer = none ∧ op0.Owner = "" ∧ op0.Zone = "" ∧
    op0.Inserts = none ∧ op0.Removes = none ∧ op0.ResponseMade = false ∧
    (RLDdnsUpdaterFetchRRset_op signer1 "example." "example."
        TypeDNSKEY).ResponseMade = true := by
  decide

/-- C10: when `RLDdnsFetchRRset` completes an op from a successful DNS
response (RCODE 0, no error in the delivered result), the RR list
written to the response slot contains only records whose rrtype equals
the op's requested rrtype, and for a requested rrtype outside
{DNSKEY, CDS, CDNSKEY, NS, DS, SOA, CSYNC} the list is empty whatever
the answer section held. -/
theorem c10_fetch_filter_types (fdop : SignerOp) (msg : DnsMsg)
    (res : SignerOpResult) (ret : Bool × Nat × Option String)
    (hrc : msg.Rcode = RcodeSuccess)
    (hout : RLDdnsFetchRRset fdop (.ok msg) = .sent res ret)
    (herr : res.Error = none) :
    (∀ rr ∈ res.RRs, rr.rtype = fdop.RRtype) ∧
    (fdop.RRtype ∉ fetchFilterTypes → res.RRs = []) := by
  rcases hs : fdop.Signer with _ | signer <;>
    rw [RLDdnsFetchRRset, hs] at hout
  · exact absurd hout (by simp)
  · simp only at hout
    split at hout
    · rcases hout with ⟨rfl, rfl⟩
      exact absurd herr (by simp)
    · rw [hrc] at hout
      simp only [RcodeSuccess, ne_eq, not_true_eq_false, if_false] at hout
      rcases hout with ⟨rfl, rfl⟩
      constructor
      · intro rr hrr
        exact (rlFilterKeep_sound (List.of_mem_filter hrr)).1
      · intro hnot
        refine List.filter_eq_nil.mpr ?_
        intro a _ hk
        exact hnot (rlFilterKeep_sound hk).2

/-- Witness for C10: a DNSKEY fetch against `signer1` whose answer holds
a DNSKEY, an NS and an RRSIG; the delivered list keeps only the DNSKEY. -/
theorem c10_fetch_filter_types_witness :
    msgW.Rcode = RcodeSuccess ∧
    RLDdnsFetchRRset fdopW (.ok msgW) = .sent resW (false, 0, none) ∧
    resW.Error = none ∧
    ((∀ rr ∈ resW.RRs, rr.rtype = fdopW.RRtype) ∧
     (fdopW.RRtype ∉ fetchFilterTypes → resW.RRs = [])) :=
  ⟨rfl, by decide, rfl,
    c10_fetch_filter_types fdopW msgW resW (false, 0, none) rfl (by decide) rfl⟩

/-- C4: the claim states that a LEAVE transition hitting an empty
`FSMSigner` marks the zone FSMStatus=stop with an explanatory reason and
issues no DNS traffic.  The code path indeed issues no DNS traffic, but
instead of marking the zone it calls `log.Fatalf`, which terminates the
whole daemon: the outcome is `fatal` and no stop reason is ever recorded
on the zone.  Shown on both cited sites (`LeaveSyncNsesAction`,
`LeaveAddCDSPreCondition`). -/
theorem c4_empty_fsmsigner_is_fatal :
    LeaveSyncNsesAction envDead zoneNoLeaver =
      { outcome := .fatal "Leaving signer name for zone example. unset.",
        stopReason := none, effects := [] } ∧
    LeaveAddCDSPreCondition envDead zoneNoLeaver =
      { outcome := .fatal "Leaving signer name for zone example. unset.",
        stopReason := none, effects := [] } := by
  decide

/-- C5: the claim states `LEAVE_ADD_CSYNC` determines the leaving signer
from the zone's `FSMSigner` field.  The code hard-codes
`signer2.catch22.se.`: for a zone whose `FSMSigner` is
`signer3.example.` (address 10.0.0.3), both the precondition and the
action address the member set plus the hard-coded signer (10.0.0.2) and
never contact 10.0.0.3. -/
theorem c5_csync_hardcodes_leaving_signer :
    zoneLeaveS3.FSMSigner = "signer3.example." ∧
    (LeaveAddCsyncPreCondition envLive zoneLeaveS3).effects =
      [Effect.dnsQuery "10.0.0.1:53" "example." TypeNS,
       Effect.dnsQuery "10.0.0.2:53" "example." TypeNS] ∧
    ((LeaveAddCsyncPreCondition envLive zoneLeaveS3).effects.contains
      (Effect.dnsQuery "10.0.0.3:53" "example." TypeNS)) = false ∧
    (LeaveAddCsyncAction envLive zoneLeaveS3).effects =
      [Effect.dnsQuery "10.0.0.1:53" "example." TypeSOA,
       Effect.dnsQuery "10.0.0.2:53" "example." TypeSOA] := by
  decide

/-- C6: the claim states every precondition and action short-circuits to
success for a `ZoneType=debug` zone without contacting any signer.  The
two other modelled transitions do, but `LEAVE_ADD_CSYNC` has no debug
shortcut: on a debug zone it still runs its DB lookup and signer
queries — it returns `failed` when the hard-coded signer is
unresolvable, and issues DNS queries when it is resolvable. -/
theorem c6_csync_lacks_debug_shortcut :
    LeaveAddCDSPreCondition envDead zoneDebugS3 =
      { outcome := .ok, stopReason := none, effects := [] } ∧
    LeaveSyncNsesAction envDead zoneDebugS3 =
      { outcome := .ok, stopReason := none, effects := [] } ∧
    (LeaveAddCsyncPreCondition envDead zoneDebugS3).outcome = .failed ∧
    (LeaveAddCsyncAction envDead zoneDebugS3).outcome = .failed ∧
    (LeaveAddCsyncPreCondition envLive zoneDebugS3).effects ≠ [] := by
  decide

/-- C8: in the `LEAVE_ADD_CDS` action, every DNSKEY answered by a
remaining signer with `flags & 0x101 == 257` yields exactly one CDS
built via SHA-256 and one CDNSKEY echoing the DNSKEY's payload, both
published to every remaining signer, and no other answered record
contributes: against an all-successful environment the action succeeds
and its update effects carry precisely the two derived lists, one entry
per answered KSK. -/
theorem c8_cds_synthesis (answers : String → List RR) (z : Zone)
    (sg : SignerGroup) (hdebug : z.ZoneType ≠ "debug")
    (hsigner : z.FSMSigner ≠ "") (hsg : z.SGroup = some sg) :
    LeaveAddCDSAction (answeringEnv answers) z =
      { outcome := .ok, stopReason := none,
        effects :=
          (remainingOf z.FSMSigner sg.SignerMap).map
            (fun s => Effect.dnsQuery (s.Address ++ ":" ++ s.Port) z.Name
              TypeDNSKEY) ++
          (remainingOf z.FSMSigner sg.SignerMap).map
            (fun s => Effect.dnsUpdate s.Name z.Name z.Name
              (some [(answeredKsks answers z.FSMSigner sg.SignerMap).map
                       (dnskeyToCDS z.Name SHA256),
                     (answeredKsks answers z.FSMSigner sg.SignerMap).map
                       dnskeyToCDNSKEY]) none) } ∧
    ∀ k ∈ answeredKsks answers z.FSMSigner sg.SignerMap,
      k.flags &&& 0x101 = 257 := by
  constructor
  · simp [LeaveAddCDSAction, if_neg hdebug, if_neg hsigner, hsg,
      cdsCollectLoop_answering, cdsPublishLoop_answering]
  · intro k hk
    exact answeredKsks_flags hk

/-- Witness for C8: zone `example.` leaving `signer3.example.` with
remaining member `signer1`, which answers one KSK, one ZSK and an NS. -/
theorem c8_cds_synthesis_witness :
    zoneLeaveS3.ZoneType ≠ "debug" ∧ zoneLeaveS3.FSMSigner ≠ "" ∧
    zoneLeaveS3.SGroup = some groupW ∧
    (LeaveAddCDSAction (answeringEnv answersW) zoneLeaveS3 =
      { outcome := .ok, stopReason := none,
        effects :=
          (remainingOf zoneLeaveS3.FSMSigner groupW.SignerMap).map
            (fun s => Effect.dnsQuery (s.Address ++ ":" ++ s.Port)
              zoneLeaveS3.Name TypeDNSKEY) ++
          (remainingOf zoneLeaveS3.FSMSigner groupW.SignerMap).map
            (fun s => Effect.dnsUpdate s.Name zoneLeaveS3.Name
              zoneLeaveS3.Name
              (some [(answeredKsks answersW zoneLeaveS3.FSMSigner
                        groupW.SignerMap).map
                       (dnskeyToCDS zoneLeaveS3.Name SHA256),
                     (answeredKsks answersW zoneLeaveS3.FSMSigner
                        groupW.SignerMap).map dnskeyToCDNSKEY]) none) } ∧
     ∀ k ∈ answeredKsks answersW zoneLeaveS3.FSMSigner groupW.SignerMap,
       k.flags &&& 0x101 = 257) :=
  ⟨by decide, by decide, rfl,
    c8_cds_synthesis answersW zoneLeaveS3 groupW (by decide) (by decide) rfl⟩

/-- C9: one `PushZones` pass selects exactly the rows satisfying
`fsmmode='auto' AND fsm != '' AND fsmstatus != 'stop'`, and its step
trace is exactly one `ZoneStepFsm` call per selected row, in selection
order — never several steps for one zone in one pass. -/
theorem c9_autopush_one_step_per_zone (db : List ZoneRow) :
    (∀ r : ZoneRow, r ∈ AutoZones db ↔
      (r ∈ db ∧ r.fsmmode = "auto" ∧ r.fsm ≠ "" ∧ r.fsmstatus ≠ "stop")) ∧
    PushZones_steps db = PushZones_zones db := by
  constructor
  · intro r
    simp [AutoZones, autoZonePred, List.mem_filter, and_assoc]
  · exact pushZone_steps_join _

end Music
